import Mathlib

/-!
Verification development for the WhatsMyName-Docker API core
(`app/main.py`, `app/utils/core.py`, `app/utils/models.py`,
`app/utils/tasks.py`), as a shallow embedding in Lean 4.

Conventions of the embedding:
* Python strings are Lean `String`; character-level operations work on
  `String.data` (a `List Char`).
* JSON-serialisable Python values (celery task payloads, manifest entries,
  response envelopes) are the inductive `PyVal`.
* The externally shared state (the redis keyspace, the celery result
  backend, and the uuid4 source) is the structure `World`; endpoint
  handlers are functions `World -> args -> Except HTTPErr PyVal × World`.
* An `HTTPException`, and any uncaught Python exception that the generic
  `except Exception` handler turns into a 500 response, is an
  `Except.error` carrying the status code and detail string.
-/

/-- Replacement of every non-overlapping occurrence of `pat` in a
character list, scanning left to right (Python `str.replace` and the
placeholder substitution of `str.format`). The counter holds the number
of already-matched pattern characters still to skip. -/
def replaceAux (pat rep : List Char) : List Char → Nat → List Char
  | [], _ => []
  | _ :: t, n + 1 => replaceAux pat rep t n
  | c :: t, 0 =>
      if !pat.isEmpty && pat.isPrefixOf (c :: t) then
        rep ++ replaceAux pat rep t (pat.length - 1)
      else
        c :: replaceAux pat rep t 0

/-- String-level wrapper of `replaceAux`. -/
def strReplace (s pat rep : String) : String :=
  ⟨replaceAux pat.data rep.data s.data 0⟩

/-- Substring test on character lists: Python `pat in s`. -/
def hasSubstr (pat : List Char) : List Char → Bool
  | [] => pat.isEmpty
  | c :: t => pat.isPrefixOf (c :: t) || hasSubstr pat t

/-- Character class `[a-zA-Z0-9:/?&=#._%+-]` of the username regex in
`app/main.py` (lines 116 and 186). -/
def allowedChar (c : Char) : Bool :=
  (('a' ≤ c) && (c ≤ 'z')) || (('A' ≤ c) && (c ≤ 'Z')) ||
  (('0' ≤ c) && (c ≤ '9')) ||
  c ∈ [':', '/', '?', '&', '=', '#', '.', '_', '%', '+', '-']

/-- Python `re.match(r..., username)` for the username pattern.
In Python, `$` also matches just before a single trailing newline, so a
username consisting of allowed characters followed by one final newline
is accepted by the source regex. -/
def reMatchUsername (s : String) : Bool :=
  let cs := s.data
  let core := if cs.getLast? = some '\n' then cs.dropLast else cs
  !core.isEmpty && core.all allowedChar

/-- Hexadecimal character, `[a-fA-F0-9]`. -/
def isHexChar (c : Char) : Bool :=
  (('0' ≤ c) && (c ≤ '9')) || (('a' ≤ c) && (c ≤ 'f')) || (('A' ≤ c) && (c ≤ 'F'))

/-- Canonical 8-4-4-4-12 UUID shape on a character list. -/
def uuidShape (cs : List Char) : Bool :=
  cs.length = 36 &&
  (cs.enum.all fun p =>
    if p.1 = 8 ∨ p.1 = 13 ∨ p.1 = 18 ∨ p.1 = 23 then p.2 = '-' else isHexChar p.2)

/-- Python `re.match` for the job-id UUID pattern in `app/main.py`
(lines 231-234), with the same trailing-newline behaviour of `$`. -/
def reMatchUUID (s : String) : Bool :=
  let cs := s.data
  let core := if cs.getLast? = some '\n' then cs.dropLast else cs
  uuidShape core

/-- Canonical UUID string (no trailing-newline allowance): the format of
ids produced by `uuid4()` and by celery task submission. -/
def isCanonicalUUID (s : String) : Bool :=
  uuidShape s.data

/-- JSON-serialisable Python values: task results, manifest entries and
response envelopes. Python dicts are association lists in insertion
order. -/
inductive PyVal where
  | none
  | str (s : String)
  | list (l : List PyVal)
  | dict (d : List (String × PyVal))

/-- Python truthiness for the values of `PyVal`. -/
def pyTruthy : PyVal → Bool
  | .none => false
  | .str s => !s.data.isEmpty
  | .list l => !l.isEmpty
  | .dict d => !d.isEmpty

/-- Python `key in v` for a string key. In the source this test is only
reached behind a truthiness guard, so the `.none` case never fires (the
model returns `false` there). On a string it is a substring test, on a
list it is membership, on a dict it is key membership. -/
def pyContains (key : String) : PyVal → Bool
  | .none => false
  | .str s => hasSubstr key.data s.data
  | .list l => l.any fun x => match x with | .str s => s == key | _ => false
  | .dict d => d.any fun p => p.1 == key

/-- Python `d.get(key, default)` on a dict association list. -/
def dictGetD (d : List (String × PyVal)) (key : String) (dflt : PyVal) : PyVal :=
  match d.find? (fun p => p.1 == key) with
  | some p => p.2
  | Option.none => dflt

/-- Lookup of a key in a `PyVal` dict, `Option`-valued. -/
def pyDictGet? (v : PyVal) (key : String) : Option PyVal :=
  match v with
  | .dict d => (d.find? (fun p => p.1 == key)).map (·.2)
  | _ => Option.none

/-- Python dict assignment `d[key] = v`: an existing key keeps its
position and gets the new value, a fresh key is appended. -/
def dictInsert (d : List (String × PyVal)) (key : String) (v : PyVal) :
    List (String × PyVal) :=
  if d.any (fun p => p.1 == key) then
    d.map fun p => if p.1 == key then (key, v) else p
  else
    d ++ [(key, v)]

/-- Minimal JSON string escaping (backslash, quote, newline), enough for
the values this system serialises. -/
def jsonEscape (s : String) : String :=
  strReplace (strReplace (strReplace s "\\" "\\\\") "\"" "\\\"") "\n" "\\n"

mutual

/-- Python `json.dumps` on a `PyVal`, with default separators. -/
def pyDumps : PyVal → String
  | .none => "null"
  | .str s => "\"" ++ jsonEscape s ++ "\""
  | .list l => "[" ++ pyDumpsList l ++ "]"
  | .dict d => "\x7b" ++ pyDumpsDict d ++ "\x7d"

/-- Comma-joined serialisation of a list of values. -/
def pyDumpsList : List PyVal → String
  | [] => ""
  | [x] => pyDumps x
  | x :: y :: t => pyDumps x ++ ", " ++ pyDumpsList (y :: t)

/-- Comma-joined serialisation of dict entries. -/
def pyDumpsDict : List (String × PyVal) → String
  | [] => ""
  | [p] => "\"" ++ jsonEscape p.1 ++ "\": " ++ pyDumps p.2
  | p :: q :: t => "\"" ++ jsonEscape p.1 ++ "\": " ++ pyDumps p.2 ++ ", " ++ pyDumpsDict (q :: t)

end

/-- State of a celery task as seen through `AsyncResult`: `PENDING`,
`SUCCESS` (with the returned payload), `FAILURE` (with the exception
text, `str(task_result.info)`), or any other state string. An id unknown
to the backend reports `PENDING`. -/
inductive CeleryState where
  | pending
  | success (result : PyVal)
  | failure (info : String)
  | other (state : String)

/-- Value stored under a redis key by this application: either a job-id
string (written by `setex(username, ..., task.id)`) or the JSON dump of
a batch manifest (written by `setex(master_job_id, ..., json.dumps(batch_results))`),
kept structured here; `json.loads`/`json.dumps` round-trip these values. -/
inductive RedisVal where
  | s (v : String)
  | m (entries : List (String × PyVal))

/-- The external world the handlers interact with: the redis keyspace,
the celery result backend (a total map from id strings to task states,
defaulting to pending for unknown ids), and the fresh-id source modelling
`uuid4()`/celery task-id generation: `gen ctr` is the next id drawn. -/
structure World where
  redis : List (String × RedisVal)
  jobs : String → CeleryState
  gen : Nat → String
  ctr : Nat

/-- Redis `get`. -/
def redisGet (w : World) (key : String) : Option RedisVal :=
  (w.redis.find? (fun p => p.1 == key)).map (·.2)

/-- Redis `setex`: overwrite the key (the TTL itself is not modelled;
expiry is represented by worlds in which the key is absent). -/
def redisSetex (w : World) (key : String) (v : RedisVal) : World :=
  { w with redis := (key, v) :: w.redis.filter (fun p => !(p.1 == key)) }

/-- The string a redis `get` hands back for a stored value: the job-id
string itself, or the JSON text of a manifest. -/
def asCachedId : RedisVal → String
  | .s v => v
  | .m entries => pyDumps (.dict entries)

/-- HTTP error response: status code and detail, covering both an
explicit `HTTPException` and the generic 500 produced by the
`except Exception` handlers. -/
structure HTTPErr where
  code : Nat
  detail : String

/-! ## Site prober and probe orchestrator (`app/utils/core.py`) -/

/-- One entry of the WhatsMyName site registry, as consumed by
`check_site`: the keys `name`, `uri_check`, `e_code`, `e_string`. -/
structure Site where
  name : String
  uri_check : String
  e_code : Nat
  e_string : String

/-- Outcome of the single HTTP request a probe issues: a response with a
status code and body text, or one of the three failure modes the source
catches (`asyncio.TimeoutError`, `aiohttp.ClientError`, any other
exception). -/
inductive ProbeResponse where
  | ok (code : Nat) (text : String)
  | timeout
  | clientError (e : String)
  | exn (e : String)

/-- Predicate for the failure modes of a probe request. -/
def isFailureResp : ProbeResponse → Bool
  | .ok _ _ => false
  | _ => true

/-- Python `site["uri_check"].format(account=username)`. -/
def siteUrl (site : Site) (username : String) : String :=
  strReplace site.uri_check "{account}" username

/-- Translation of `check_site` (`core.py` lines 96-121). The network is
a map from the formatted URL to a `ProbeResponse`. The source returns the
tuple `(name, url)` on a hit, the tuple `("error", name)` on any caught
exception, and `None` otherwise. -/
def check_site (net : String → ProbeResponse) (site : Site) (username : String) :
    Option (String × String) :=
  let url := siteUrl site username
  match net url with
  | .ok code text =>
      if code == site.e_code && hasSubstr site.e_string.data text.data then
        some (site.name, url)
      else
        Option.none
  | .timeout => some ("error", site.name)
  | .clientError _ => some ("error", site.name)
  | .exn _ => some ("error", site.name)

/-- The statistics dict built at `core.py` lines 147-151. -/
structure Stats where
  websites_checked : Nat
  profiles_found : Nat
  errors : Nat
deriving DecidableEq

/-- The result-collection loop of `check_username_existence`
(`core.py` lines 138-144): accumulator is
(found_sites, checked_count, error_count). The truthiness test
`if result:` sends `None` results to neither bucket; a truthy tuple whose
first component is the string `error` is counted as an error, any other
truthy tuple is appended to `found_sites`. -/
def tallyAux (acc : List (String × String) × Nat × Nat) :
    List (Option (String × String)) → List (String × String) × Nat × Nat
  | [] => acc
  | r :: rest =>
      match r with
      | Option.none => tallyAux (acc.1, acc.2.1 + 1, acc.2.2) rest
      | some p =>
          if p.1 == "error" then
            tallyAux (acc.1, acc.2.1 + 1, acc.2.2 + 1) rest
          else
            tallyAux (acc.1 ++ [p], acc.2.1 + 1, acc.2.2) rest

/-- Translation of `check_username_existence` (`core.py` lines 124-153):
gather one `check_site` result per registry entry (`data["sites"]`, here
the list `sites`), in order, then tally. -/
def check_username_existence (net : String → ProbeResponse) (username : String)
    (sites : List Site) : List (String × String) × Stats :=
  let results := sites.map (fun site => check_site net site username)
  let (found_sites, checked_count, error_count) := tallyAux ([], 0, 0) results
  (found_sites,
   { websites_checked := checked_count,
     profiles_found := found_sites.length,
     errors := error_count })

/-! ## Submission endpoints (`app/main.py`) -/

/-- Response detail strings of `app/main.py`. -/
def badUsernameDetail : String := "Username must contain only valid URL characters."

/-- Generic 500 detail of the batch submission handler. -/
def batchErrDetail : String := "An unexpected error occurred during batch submission."

/-- Generic 500 detail of the status handler. -/
def statusErrDetail : String := "An unexpected error occurred while checking job status."

/-- Invalid job-id detail of the status handler. -/
def badJobIdDetail : String := "Invalid job_id format. Must be a valid UUID."

/-- Creation branch shared by cache miss and stale cache in
`submit_username` (`main.py` lines 143-149): submit a new celery task
(drawing a fresh id), cache it under the username, return its id. -/
def createSingle (w : World) (username : String) : Except HTTPErr PyVal × World :=
  let id := w.gen w.ctr
  let w1 : World := { w with ctr := w.ctr + 1 }
  let w2 := redisSetex w1 username (.s id)
  (.ok (.dict [("job_id", .str id)]), w2)

/-- Translation of the `submit_username` handler (`main.py` lines
108-166). A cache hit is re-validated against the live task state: the
cached id is reused only while the task is pending, or succeeded with a
truthy payload not containing an error field; otherwise a new task is
created and the cache overwritten. The redis value is used undecoded as
the task id; byte/str differences are immaterial in the model. -/
def submit_username (w : World) (username : String) : Except HTTPErr PyVal × World :=
  if !reMatchUsername username then
    (.error ⟨400, badUsernameDetail⟩, w)
  else
    match redisGet w username with
    | some cv =>
        let cached := asCachedId cv
        if cached.data.isEmpty then
          createSingle w username
        else
          match w.jobs cached with
          | .pending => (.ok (.dict [("job_id", .str cached)]), w)
          | .success r =>
              if pyTruthy r && !pyContains "error" r then
                (.ok (.dict [("job_id", .str cached)]), w)
              else
                createSingle w username
          | .failure _ => createSingle w username
          | .other _ => createSingle w username
    | Option.none => createSingle w username

/-- The request model of the batch endpoint (`models.py` lines 43-47):
its single declared field is `username`. -/
structure BatchLookup where
  username : List String

/-- Attribute access on a `BatchLookup` instance: a pydantic `BaseModel`
exposes exactly its declared fields, and raises `AttributeError` (here
`Option.none`) for any other attribute name. -/
def BatchLookup.getattr (r : BatchLookup) (attr : String) : Option (List String) :=
  if attr == "username" then some r.username else Option.none

/-- Manifest entry recorded for a malformed username
(`main.py` line 187). -/
def invalidEntry : PyVal :=
  .dict [("status", .str "error"), ("detail", .str "Invalid username format")]

/-- The per-username loop of the batch handler (`main.py` lines
184-205), threading the world and the `batch_results` dict. A truthy
cached value is reused as-is, with no re-query of its task state; a
falsy (empty) cached value falls through to creation, like a miss. -/
def submitBatchLoop : World → List String → List (String × PyVal) →
    List (String × PyVal) × World
  | w, [], agg => (agg, w)
  | w, u :: rest, agg =>
      if !reMatchUsername u then
        submitBatchLoop w rest (dictInsert agg u invalidEntry)
      else
        let cachedT : Option String :=
          match redisGet w u with
          | some cv => let c := asCachedId cv; if c.data.isEmpty then Option.none else some c
          | Option.none => Option.none
        match cachedT with
        | some c =>
            submitBatchLoop w rest
              (dictInsert agg u (.dict [("job_id", .str c), ("status", .str "cached")]))
        | Option.none =>
            let id := w.gen w.ctr
            let w1 := redisSetex { w with ctr := w.ctr + 1 } u (.s id)
            submitBatchLoop w1 rest
              (dictInsert agg u (.dict [("job_id", .str id), ("status", .str "new")]))

/-- Body of the batch handler from line 181 on: draw the master id
(`str(uuid4())`, modelled by the same fresh-id source), run the loop,
persist the manifest under the master id, return the envelope. -/
def submit_batch_body (w : World) (usernames : List String) :
    Except HTTPErr PyVal × World :=
  let master := w.gen w.ctr
  let w1 : World := { w with ctr := w.ctr + 1 }
  let (results, w2) := submitBatchLoop w1 usernames []
  let w3 := redisSetex w2 master (.m results)
  (.ok (.dict [("master_job_id", .str master), ("jobs", .dict results)]), w3)

/-- Translation of the `submit_batch_usernames` handler (`main.py` lines
169-221). Its first statement, `usernames = request.usernames`, accesses
an attribute that `BatchLookup` does not declare; the resulting
`AttributeError` is caught by the generic `except Exception` handler and
becomes an HTTP 500 before any other work happens. -/
def submit_batch_usernames (r : BatchLookup) (w : World) :
    Except HTTPErr PyVal × World :=
  match r.getattr "usernames" with
  | some usernames => submit_batch_body w usernames
  | Option.none => (.error ⟨500, batchErrDetail⟩, w)

/-! ## Status endpoint (`app/main.py` lines 224-326) -/

/-- Single-job status mapping applied to one batch-manifest job id
(`main.py` lines 256-279). A non-string id makes `AsyncResult` raise
inside celery, caught as a 500. In the `SUCCESS` branch, a payload that
is falsy or contains an error field is routed to the failed branch,
whose `result.get` raises `AttributeError` (a 500) when the payload is
not a dict. -/
def statusEntryFor (w : World) (jv : PyVal) : Except HTTPErr PyVal :=
  match jv with
  | .str s =>
      match w.jobs s with
      | .pending => .ok (.dict [("status", .str "pending")])
      | .success r =>
          if pyTruthy r && !pyContains "error" r then
            .ok (.dict [("status", .str "complete"), ("results", r)])
          else
            match r with
            | .dict d =>
                .ok (.dict [("status", .str "failed"),
                            ("error", dictGetD d "error" (.str "Unknown error"))])
            | _ => .error ⟨500, statusErrDetail⟩
      | .failure i => .ok (.dict [("status", .str "failed"), ("error", .str i)])
      | .other st => .ok (.dict [("status", .str "unknown"), ("state", .str st)])
  | _ => .error ⟨500, statusErrDetail⟩

/-- One iteration of the batch aggregation loop body (`main.py` lines
250-279): read `job_info.get("job_id")` (an `AttributeError`, hence a
500, when the entry is not a dict), record an error entry when it is
falsy, otherwise map the live task state. Returns the recorded entry and
the value assigned to the loop variable `job_id`. -/
def stepEntry (w : World) (info : PyVal) : Except HTTPErr (PyVal × PyVal) :=
  match info with
  | .dict d =>
      let jv := dictGetD d "job_id" PyVal.none
      if !pyTruthy jv then
        .ok (.dict [("status", .str "error"), ("detail", .str "Invalid job ID")], jv)
      else
        (statusEntryFor w jv).map (fun e => (e, jv))
  | _ => .error ⟨500, statusErrDetail⟩

/-- The batch aggregation loop (`main.py` lines 249-279), threading the
`aggregated_results` dict and the reassigned `job_id` variable. -/
def batchLoop (w : World) : List (String × PyVal) → List (String × PyVal) → PyVal →
    Except HTTPErr (List (String × PyVal) × PyVal)
  | [], agg, var => .ok (agg, var)
  | (u, info) :: rest, agg, _ =>
      match stepEntry w info with
      | .error e => .error e
      | .ok (entry, jv) => batchLoop w rest (dictInsert agg u entry) jv

/-- Single-mode branch of the status handler (`main.py` lines 284-315). -/
def singleStatusEnvelope (w : World) (job_id : String) : Except HTTPErr PyVal :=
  match w.jobs job_id with
  | .pending =>
      .ok (.dict [("job_id", .str job_id), ("status", .str "pending"),
                  ("type", .str "single")])
  | .success r =>
      if pyTruthy r && !pyContains "error" r then
        .ok (.dict [("job_id", .str job_id), ("status", .str "complete"),
                    ("results", r), ("type", .str "single")])
      else
        match r with
        | .dict d =>
            .ok (.dict [("job_id", .str job_id), ("status", .str "failed"),
                        ("error", dictGetD d "error" (.str "Unknown error")),
                        ("type", .str "single")])
        | _ => .error ⟨500, statusErrDetail⟩
  | .failure i =>
      .ok (.dict [("job_id", .str job_id), ("status", .str "failed"),
                  ("error", .str i), ("type", .str "single")])
  | .other st =>
      .ok (.dict [("job_id", .str job_id), ("status", .str "unknown"),
                  ("state", .str st), ("type", .str "single")])

/-- Translation of the `job_status` handler (`main.py` lines 224-326).
A stored plain job-id string under the queried key makes `json.loads`
raise (such strings are not JSON), caught as a 500. The handler performs
reads only; every branch returns the world unchanged. -/
def job_status (w : World) (job_id : String) : Except HTTPErr PyVal × World :=
  if !reMatchUUID job_id then
    (.error ⟨400, badJobIdDetail⟩, w)
  else
    match redisGet w job_id with
    | some (.m entries) =>
        match batchLoop w entries [] (.str job_id) with
        | .error e => (.error e, w)
        | .ok (agg, varF) =>
            (.ok (.dict [("job_id", varF), ("type", .str "batch"),
                         ("results", .dict agg)]), w)
    | some (.s _) => (.error ⟨500, statusErrDetail⟩, w)
    | Option.none => (singleStatusEnvelope w job_id, w)

/-! ## Closed form of the result tally -/

/-- Found-site sublist extracted by the tally: truthy tuples whose first
component is not the string `error`, in order. -/
def collectFound : List (Option (String × String)) → List (String × String)
  | [] => []
  | Option.none :: rest => collectFound rest
  | some p :: rest =>
      if p.1 == "error" then collectFound rest else p :: collectFound rest

/-- Number of error results counted by the tally. -/
def countErr : List (Option (String × String)) → Nat
  | [] => 0
  | Option.none :: rest => countErr rest
  | some p :: rest => (if p.1 == "error" then 1 else 0) + countErr rest

/-! ## Concrete instances used by witnesses and counterexamples -/

/-- A canonical UUID string used as a job id in concrete instances. -/
def uuidA : String := "aaaaaaaa-aaaa-aaaa-aaaa-aaaaaaaaaaaa"

/-- A second canonical UUID string. -/
def uuidB : String := "bbbbbbbb-bbbb-bbbb-bbbb-bbbbbbbbbbbb"

/-- A third canonical UUID string. -/
def uuidC : String := "cccccccc-cccc-cccc-cccc-cccccccccccc"

/-- Registry entry probed successfully in the C3 witness. -/
def c3SiteGood : Site :=
  { name := "good", uri_check := "https://good.example/{account}",
    e_code := 200, e_string := "found" }

/-- Registry entry whose probe times out in the C3 witness. -/
def c3SiteBad : Site :=
  { name := "bad", uri_check := "https://bad.example/{account}",
    e_code := 200, e_string := "found" }

/-- Network for the C3 witness: the bad site times out, every other URL
answers 200 with a matching body. -/
def c3Net : String → ProbeResponse :=
  fun url => if url == "https://bad.example/bob" then .timeout else .ok 200 "user found"

/-- Site used in the C7 witness. -/
def c7Site : Site :=
  { name := "s7", uri_check := "https://seven.example/{account}",
    e_code := 200, e_string := "hit" }

/-- Network for the C7 witness: every request raises a client error. -/
def c7Net : String → ProbeResponse :=
  fun _ => .clientError "connection refused"

/-- World with an empty redis keyspace, all task states pending, and a
fresh-id source yielding `uuidA`. -/
def freshWorld : World :=
  { redis := [], jobs := fun _ => .pending, gen := fun _ => uuidA, ctr := 0 }

/-- World in which every task reports success with a `None` payload (the
payload `check_username` returns on an unknown exception). -/
def wSuccessNone : World :=
  { redis := [], jobs := fun _ => .success PyVal.none, gen := fun _ => uuidB, ctr := 0 }

/-- World in which every task reports failure. -/
def wFail : World :=
  { redis := [], jobs := fun _ => .failure "boom", gen := fun _ => uuidB, ctr := 0 }

/-- World with a cached job id for the username `alice` whose referenced
task has failed. -/
def wC6 : World :=
  { redis := [("alice", RedisVal.s uuidA)], jobs := fun _ => .failure "boom",
    gen := fun _ => uuidB, ctr := 0 }

/-- World with a cached job id for the username `alice` whose referenced
task succeeded with the empty-list payload — the payload
`username_lookup` returns when the registry fetch fails: it has no error
field, but it is falsy. -/
def wC4 : World :=
  { redis := [("alice", RedisVal.s uuidA)],
    jobs := fun _ => .success (.list []),
    gen := fun _ => uuidB, ctr := 0 }

/-- World holding a two-entry batch manifest under the master id
`uuidC`, with both referenced tasks pending. -/
def wBatchTwo : World :=
  { redis := [(uuidC, RedisVal.m
      [("a", .dict [("job_id", .str uuidA), ("status", .str "new")]),
       ("b", .dict [("job_id", .str uuidB), ("status", .str "new")])])],
    jobs := fun _ => .pending, gen := fun _ => uuidA, ctr := 0 }

theorem tallyAux_eq (rs : List (Option (String × String)))
    (f : List (String × String)) (c e : Nat) :
    tallyAux (f, c, e) rs = (f ++ collectFound rs, c + rs.length, e + countErr rs) := by
  induction rs generalizing f c e with
  | nil => simp [tallyAux, collectFound, countErr]
  | cons r rest ih =>
      cases r with
      | none => simp [tallyAux, collectFound, countErr, ih]; omega
      | some p =>
          by_cases hp : p.1 == "error" <;>
            simp [tallyAux, collectFound, countErr, hp, ih] <;> omega

theorem collectFound_append (xs ys : List (Option (String × String))) :
    collectFound (xs ++ ys) = collectFound xs ++ collectFound ys := by
  induction xs with
  | nil => simp [collectFound]
  | cons x xs ih =>
      cases x with
      | none => simp [collectFound, ih]
      | some p => by_cases hp : p.1 == "error" <;> simp [collectFound, hp, ih]

theorem countErr_append (xs ys : List (Option (String × String))) :
    countErr (xs ++ ys) = countErr xs + countErr ys := by
  induction xs with
  | nil => simp [countErr]
  | cons x xs ih =>
      cases x with
      | none => simp [countErr, ih]
      | some p =>
          by_cases hp : p.1 == "error" <;> (simp [countErr, hp, ih]; try omega)

theorem collectFound_countErr_le (rs : List (Option (String × String))) :
    (collectFound rs).length + countErr rs ≤ rs.length := by
  induction rs with
  | nil => simp [collectFound, countErr]
  | cons r rest ih =>
      cases r with
      | none => simp [collectFound, countErr]; omega
      | some p =>
          by_cases hp : p.1 == "error" <;> simp [collectFound, countErr, hp] <;> omega

theorem check_site_failure (net : String → ProbeResponse) (site : Site)
    (username : String) (h : isFailureResp (net (siteUrl site username)) = true) :
    check_site net site username = some ("error", site.name) := by
  unfold check_site
  cases hr : net (siteUrl site username) with
  | ok code text => rw [hr] at h; simp [isFailureResp] at h
  | timeout => simp [hr]
  | clientError e => simp [hr]
  | exn e => simp [hr]

theorem check_username_existence_unfolded (net : String → ProbeResponse)
    (username : String) (sites : List Site) :
    check_username_existence net username sites =
      (collectFound (sites.map (fun site => check_site net site username)),
       { websites_checked := sites.length,
         profiles_found :=
           (collectFound (sites.map (fun site => check_site net site username))).length,
         errors := countErr (sites.map (fun site => check_site net site username)) }) := by
  simp only [check_username_existence, tallyAux_eq]
  simp

/-! ## Helper lemmas about the submission and status handlers -/

theorem uuidA_is_uuid : isCanonicalUUID uuidA = true := by decide

theorem uuid_data_not_empty (s : String) (h : isCanonicalUUID s = true) :
    s.data.isEmpty = false := by
  unfold isCanonicalUUID uuidShape at h
  rw [Bool.and_eq_true] at h
  have h1 := h.1
  rw [decide_eq_true_eq] at h1
  cases hd : s.data with
  | nil => rw [hd] at h1; simp at h1
  | cons a t => simp

theorem redisGet_setex_same (w : World) (k : String) (v : RedisVal) :
    redisGet (redisSetex w k v) k = some v := by
  simp [redisGet, redisSetex]

theorem createSingle_fst (w : World) (u : String) :
    (createSingle w u).1 = .ok (.dict [("job_id", .str (w.gen w.ctr))]) := rfl

theorem createSingle_snd_get (w : World) (u : String) :
    redisGet (createSingle w u).2 u = some (.s (w.gen w.ctr)) := by
  simp [createSingle]
  exact redisGet_setex_same _ u _

theorem createSingle_snd_jobs (w : World) (u : String) :
    (createSingle w u).2.jobs = w.jobs := rfl

theorem createSingle_snd_gen (w : World) (u : String) :
    (createSingle w u).2.gen = w.gen := rfl

theorem submit_miss (w : World) (u : String) (hval : reMatchUsername u = true)
    (hc : redisGet w u = Option.none) :
    submit_username w u = createSingle w u := by
  simp [submit_username, hval, hc]

theorem submit_hit_pending (w : World) (u c : String)
    (hval : reMatchUsername u = true) (hc : redisGet w u = some (.s c))
    (hne : c.data.isEmpty = false) (hp : w.jobs c = .pending) :
    submit_username w u = (.ok (.dict [("job_id", .str c)]), w) := by
  simp [submit_username, hval, hc, asCachedId, hne, hp]

theorem submit_hit_success_good (w : World) (u c : String) (r : PyVal)
    (hval : reMatchUsername u = true) (hc : redisGet w u = some (.s c))
    (hne : c.data.isEmpty = false) (hs : w.jobs c = .success r)
    (ht : pyTruthy r = true) (hcn : pyContains "error" r = false) :
    submit_username w u = (.ok (.dict [("job_id", .str c)]), w) := by
  simp [submit_username, hval, hc, asCachedId, hne, hs, ht, hcn]

theorem submit_hit_success_bad (w : World) (u c : String) (r : PyVal)
    (hval : reMatchUsername u = true) (hc : redisGet w u = some (.s c))
    (hne : c.data.isEmpty = false) (hs : w.jobs c = .success r)
    (hbad : pyTruthy r = false ∨ pyContains "error" r = true) :
    submit_username w u = createSingle w u := by
  have hb : (pyTruthy r && !pyContains "error" r) = false := by
    rcases hbad with h | h <;> simp [h]
  simp [submit_username, hval, hc, asCachedId, hne, hs, hb]

theorem submit_hit_failure (w : World) (u c : String) (i : String)
    (hval : reMatchUsername u = true) (hc : redisGet w u = some (.s c))
    (hne : c.data.isEmpty = false) (hs : w.jobs c = .failure i) :
    submit_username w u = createSingle w u := by
  simp [submit_username, hval, hc, asCachedId, hne, hs]

theorem submit_hit_other (w : World) (u c : String) (st : String)
    (hval : reMatchUsername u = true) (hc : redisGet w u = some (.s c))
    (hne : c.data.isEmpty = false) (hs : w.jobs c = .other st) :
    submit_username w u = createSingle w u := by
  simp [submit_username, hval, hc, asCachedId, hne, hs]

theorem stepEntry_ok_dict (w : World) (info : PyVal) (p : PyVal × PyVal)
    (h : stepEntry w info = .ok p) : ∃ d, info = .dict d := by
  cases info with
  | dict d => exact ⟨d, rfl⟩
  | none => simp [stepEntry] at h
  | str s => simp [stepEntry] at h
  | list l => simp [stepEntry] at h

theorem stepEntry_ok_var (w : World) (d : List (String × PyVal)) (p : PyVal × PyVal)
    (h : stepEntry w (.dict d) = .ok p) : p.2 = dictGetD d "job_id" PyVal.none := by
  unfold stepEntry at h
  by_cases ht : pyTruthy (dictGetD d "job_id" PyVal.none)
  · simp [ht] at h
    cases hs : statusEntryFor w (dictGetD d "job_id" PyVal.none) with
    | error e => rw [hs] at h; simp [Except.map] at h
    | ok e => rw [hs] at h; simp [Except.map] at h; rw [← h]
  · simp [ht] at h
    rw [← h]

theorem batchLoop_cons (w : World) (u : String) (info : PyVal)
    (rest : List (String × PyVal)) (agg : List (String × PyVal)) (var : PyVal) :
    batchLoop w ((u, info) :: rest) agg var =
      match stepEntry w info with
      | .error e => .error e
      | .ok (entry, jv) => batchLoop w rest (dictInsert agg u entry) jv := rfl

theorem batchLoop_ok_last (w : World) (l : List (String × PyVal)) (u : String)
    (d : List (String × PyVal)) (agg : List (String × PyVal)) (var : PyVal)
    (res : List (String × PyVal) × PyVal)
    (h : batchLoop w (l ++ [(u, .dict d)]) agg var = .ok res) :
    res.2 = dictGetD d "job_id" PyVal.none := by
  induction l generalizing agg var with
  | nil =>
      rw [List.nil_append, batchLoop_cons] at h
      cases hst : stepEntry w (.dict d) with
      | error e => rw [hst] at h; simp at h
      | ok p =>
          rw [hst] at h
          have hv := stepEntry_ok_var w d p hst
          cases p with
          | mk entry jv =>
              simp [batchLoop] at h
              rw [← h]
              exact hv
  | cons x l ih =>
      rw [List.cons_append, batchLoop_cons] at h
      cases hst : stepEntry w x.2 with
      | error e =>
          cases x with
          | mk xu xi => rw [hst] at h; simp at h
      | ok p =>
          cases x with
          | mk xu xi =>
              rw [hst] at h
              cases p with
              | mk entry jv => exact ih _ _ h

theorem batchLoop_ok_last_dict (w : World) (es : List (String × PyVal))
    (agg : List (String × PyVal)) (var : PyVal)
    (res : List (String × PyVal) × PyVal)
    (h : batchLoop w es agg var = .ok res) :
    es = [] ∨ ∃ l u d, es = l ++ [(u, .dict d)] := by
  induction es generalizing agg var with
  | nil => exact Or.inl rfl
  | cons x rest ih =>
      right
      cases x with
      | mk xu xi =>
          rw [batchLoop_cons] at h
          cases hst : stepEntry w xi with
          | error e => rw [hst] at h; simp at h
          | ok p =>
              rw [hst] at h
              obtain ⟨d0, hd0⟩ := stepEntry_ok_dict w xi p hst
              cases p with
              | mk entry jv =>
                  rcases ih _ _ h with hnil | ⟨l, u, d, hdec⟩
                  · subst hnil
                    exact ⟨[], xu, d0, by rw [hd0]; simp⟩
                  · exact ⟨(xu, xi) :: l, u, d, by rw [hdec]; simp⟩

example : hasSubstr "error".data "no errors here".data = true := by decide
example : hasSubstr "error".data "fine".data = false := by decide
example : reMatchUsername "alice" = true := by decide
example : reMatchUsername "b b" = false := by decide
example : reMatchUsername "alice\n" = true := by decide
example : reMatchUsername "\n" = false := by decide
example : isCanonicalUUID "11111111-1111-1111-1111-111111111111" = true := by decide
example : isCanonicalUUID "alice" = false := by decide

/-! ## Claim theorems -/

/-- C3: for every username and every registry of K site definitions, the
scan returns Stats with checked equal to K and found + errors ≤ checked,
and one site whose probe fails does not prevent outcomes being collected
for the other K-1 sites (the found-site list, and hence the found count,
is the same as for the registry without the failing site). -/
theorem scan_stats_bounds (net : String → ProbeResponse) (username : String)
    (sites : List Site) :
    (check_username_existence net username sites).2.websites_checked = sites.length ∧
    (check_username_existence net username sites).2.profiles_found +
        (check_username_existence net username sites).2.errors ≤
      (check_username_existence net username sites).2.websites_checked ∧
    (∀ l1 s l2, sites = l1 ++ s :: l2 →
      isFailureResp (net (siteUrl s username)) = true →
      (check_username_existence net username sites).1 =
        (check_username_existence net username (l1 ++ l2)).1 ∧
      (check_username_existence net username sites).2.profiles_found =
        (check_username_existence net username (l1 ++ l2)).2.profiles_found) := by
  rw [check_username_existence_unfolded]
  refine ⟨rfl, ?_, ?_⟩
  · have h := collectFound_countErr_le (sites.map (fun site => check_site net site username))
    simpa using h
  · intro l1 s l2 hs hf
    subst hs
    rw [check_username_existence_unfolded]
    simp only [List.map_append, List.map_cons, collectFound_append,
      check_site_failure net s username hf, collectFound]
    simp

/-- Witness for C3 at a concrete two-site registry in which one probe
times out: checked is 2, the bounds hold, and the found list matches the
scan of the remaining site alone. -/
theorem scan_stats_bounds_witness :
    (check_username_existence c3Net "bob" [c3SiteGood, c3SiteBad]).2.websites_checked = 2 ∧
    (check_username_existence c3Net "bob" [c3SiteGood, c3SiteBad]).2.profiles_found +
        (check_username_existence c3Net "bob" [c3SiteGood, c3SiteBad]).2.errors ≤
      (check_username_existence c3Net "bob" [c3SiteGood, c3SiteBad]).2.websites_checked ∧
    (check_username_existence c3Net "bob" [c3SiteGood, c3SiteBad]).1 =
      (check_username_existence c3Net "bob" [c3SiteGood]).1 := by
  have h := scan_stats_bounds c3Net "bob" [c3SiteGood, c3SiteBad]
  exact ⟨h.1, h.2.1, (h.2.2 [c3SiteGood] c3SiteBad [] rfl (by decide)).1⟩

/-- C7: for every site definition and username, the single-site probe
returns a classified outcome: each failure mode (timeout, connection
error, unexpected exception) becomes the error outcome, which the scan
counts in Stats.errors while still checking every site and collecting
the same found list as without the failing site. -/
theorem check_site_absorbs_failures (net : String → ProbeResponse) (site : Site)
    (username : String) :
    (isFailureResp (net (siteUrl site username)) = true →
      check_site net site username = some ("error", site.name)) ∧
    (∀ l1 l2, isFailureResp (net (siteUrl site username)) = true →
      (check_username_existence net username (l1 ++ site :: l2)).2.errors =
        (check_username_existence net username (l1 ++ l2)).2.errors + 1 ∧
      (check_username_existence net username (l1 ++ site :: l2)).2.websites_checked =
        l1.length + l2.length + 1 ∧
      (check_username_existence net username (l1 ++ site :: l2)).1 =
        (check_username_existence net username (l1 ++ l2)).1) := by
  constructor
  · exact check_site_failure net site username
  · intro l1 l2 hf
    rw [check_username_existence_unfolded, check_username_existence_unfolded]
    simp only [List.map_append, List.map_cons, collectFound_append, countErr_append,
      check_site_failure net site username hf, collectFound, countErr]
    refine ⟨by simp; omega, by simp; omega, by simp⟩

/-- Witness for C7: with a network refusing every connection, the probe
of the concrete site is classified as an error outcome, and a scan of
that site alone checks one site with one error and an empty found list. -/
theorem check_site_absorbs_failures_witness :
    check_site c7Net c7Site "bob" = some ("error", "s7") ∧
    (check_username_existence c7Net "bob" ([] ++ c7Site :: [])).2.errors =
      (check_username_existence c7Net "bob" ([] ++ [])).2.errors + 1 ∧
    (check_username_existence c7Net "bob" ([] ++ c7Site :: [])).1 =
      (check_username_existence c7Net "bob" ([] ++ [])).1 := by
  have h := check_site_absorbs_failures c7Net c7Site "bob"
  have h2 := h.2 [] [] (by decide)
  exact ⟨h.1 (by decide), h2.1, h2.2.2⟩

/-- C1 (refuted by the code): the batch submission handler never returns
the claimed envelope on any well-typed input. Its first statement reads
`request.usernames`, an attribute the `BatchLookup` model does not
declare (its field is `username`); the `AttributeError` is caught by the
generic handler and every call answers HTTP 500, with the world
untouched. -/
theorem batch_endpoint_always_500 (r : BatchLookup) (w : World) :
    submit_batch_usernames r w = (.error ⟨500, batchErrDetail⟩, w) := rfl

/-- C5 (refuted by the code): a concrete batch of two usernames, one of
them malformed, does not produce a two-entry manifest; the handler
raises the `AttributeError` of C1 before reaching the per-username loop
and answers HTTP 500. -/
theorem batch_one_malformed_endpoint_500 :
    submit_batch_usernames ⟨["alice", "b b"]⟩ freshWorld =
      (.error ⟨500, batchErrDetail⟩, freshWorld) := rfl

/-- C8 (refuted by the code): the username `alice` followed by a single
newline contains a character outside the allowed class, yet the source
regex accepts it (`$` in Python also matches just before a trailing
newline), so submission creates a job and writes a cache entry instead
of raising a validation error. -/
theorem submit_trailing_newline_accepted :
    reMatchUsername "alice\n" = true ∧
    "alice\n".data.all allowedChar = false ∧
    submit_username freshWorld "alice\n" =
      (.ok (.dict [("job_id", .str uuidA)]),
       { redis := [("alice\n", RedisVal.s uuidA)], jobs := freshWorld.jobs,
         gen := freshWorld.gen, ctr := 1 }) :=
  ⟨by decide, by decide, rfl⟩

/-- C2 counterexample: a task in state SUCCESS with payload `None` (the
payload `check_username` returns after an unknown exception) does not
yield a complete envelope; the handler reaches `result.get` on `None`,
raising an `AttributeError` that becomes an HTTP 500. -/
theorem job_status_success_none_500 :
    (job_status wSuccessNone uuidA).1 = .error ⟨500, statusErrDetail⟩ ∧
    (Except.error ⟨500, statusErrDetail⟩ : Except HTTPErr PyVal) ≠
      .ok (.dict [("job_id", .str uuidA), ("status", .str "complete"),
                  ("results", PyVal.none), ("type", .str "single")]) :=
  ⟨rfl, by simp⟩

/-- C2 amended: for a job id in single mode (valid UUID, no stored
manifest), the mapping is: Pending yields pending; Success with a truthy
payload lacking an error field yields complete with the result; Success
with a dict payload that is falsy or has an error field yields failed
with the error (default Unknown error); Success with a falsy or
error-containing payload that is not a dict (such as None or an empty
list) does not yield an envelope but an HTTP 500; Failure yields failed
with the error; any other state yields unknown. -/
theorem job_status_single_mapping (w : World) (jid : String)
    (hu : reMatchUUID jid = true) (hb : redisGet w jid = Option.none) :
    (w.jobs jid = .pending →
      (job_status w jid).1 = .ok (.dict [("job_id", .str jid),
        ("status", .str "pending"), ("type", .str "single")])) ∧
    (∀ r, w.jobs jid = .success r → pyTruthy r = true → pyContains "error" r = false →
      (job_status w jid).1 = .ok (.dict [("job_id", .str jid),
        ("status", .str "complete"), ("results", r), ("type", .str "single")])) ∧
    (∀ d, w.jobs jid = .success (.dict d) →
      (pyTruthy (.dict d) = false ∨ pyContains "error" (.dict d) = true) →
      (job_status w jid).1 = .ok (.dict [("job_id", .str jid),
        ("status", .str "failed"),
        ("error", dictGetD d "error" (.str "Unknown error")),
        ("type", .str "single")])) ∧
    (∀ r, w.jobs jid = .success r →
      (pyTruthy r = false ∨ pyContains "error" r = true) → (∀ d, r ≠ .dict d) →
      (job_status w jid).1 = .error ⟨500, statusErrDetail⟩) ∧
    (∀ i, w.jobs jid = .failure i →
      (job_status w jid).1 = .ok (.dict [("job_id", .str jid),
        ("status", .str "failed"), ("error", .str i), ("type", .str "single")])) ∧
    (∀ st, w.jobs jid = .other st →
      (job_status w jid).1 = .ok (.dict [("job_id", .str jid),
        ("status", .str "unknown"), ("state", .str st), ("type", .str "single")])) := by
  refine ⟨?_, ?_, ?_, ?_, ?_, ?_⟩
  · intro hp
    simp [job_status, hu, hb, singleStatusEnvelope, hp]
  · intro r hs ht hc
    simp [job_status, hu, hb, singleStatusEnvelope, hs, ht, hc]
  · intro d hs hbad
    have hcond : (pyTruthy (.dict d) && !pyContains "error" (.dict d)) = false := by
      rcases hbad with h | h <;> simp [h]
    simp [job_status, hu, hb, singleStatusEnvelope, hs, hcond]
  · intro r hs hbad hnd
    have hcond : (pyTruthy r && !pyContains "error" r) = false := by
      rcases hbad with h | h <;> simp [h]
    cases r with
    | dict d => exact absurd rfl (hnd d)
    | none => simp [job_status, hu, hb, singleStatusEnvelope, hs, hcond]
    | str s => simp [job_status, hu, hb, singleStatusEnvelope, hs, hcond]
    | list l => simp [job_status, hu, hb, singleStatusEnvelope, hs, hcond]
  · intro i hs
    simp [job_status, hu, hb, singleStatusEnvelope, hs]
  · intro st hs
    simp [job_status, hu, hb, singleStatusEnvelope, hs]

/-- Witness for the amended C2 mapping: in a world where every task
reports FAILURE, the status of a concrete job id is a failed envelope
carrying the exception text. -/
theorem job_status_single_mapping_witness :
    (job_status wFail uuidA).1 = .ok (.dict [("job_id", .str uuidA),
      ("status", .str "failed"), ("error", .str "boom"),
      ("type", .str "single")]) := by
  have h := job_status_single_mapping wFail uuidA (by decide) rfl
  exact h.2.2.2.2.1 "boom" rfl

/-- C6 counterexample: in the batch submission loop, a cached job id is
reused as-is even though its referenced task has failed — no re-query
gates the reuse, and no new job is created (the world, including the
fresh-id counter, is unchanged). -/
theorem batch_cached_id_reused_unchecked :
    wC6.jobs uuidA = .failure "boom" ∧
    submitBatchLoop wC6 ["alice"] [] =
      ([("alice", PyVal.dict [("job_id", .str uuidA), ("status", .str "cached")])],
       wC6) :=
  ⟨rfl, rfl⟩

/-- C6 amended: only the single submission path treats a cached job id
as a candidate, re-querying the referenced live state and reusing the id
exactly when that state is Pending or Success with a truthy error-free
payload, and creating a new job otherwise; the batch path reuses a
truthy cached id unconditionally, recording a cached entry without any
re-query of the task state. -/
theorem cached_id_validation_paths :
    (∀ w u c, reMatchUsername u = true → redisGet w u = some (.s c) →
      c.data.isEmpty = false →
      ((w.jobs c = .pending →
          submit_username w u = (.ok (.dict [("job_id", .str c)]), w)) ∧
       (∀ r, w.jobs c = .success r → pyTruthy r = true → pyContains "error" r = false →
          submit_username w u = (.ok (.dict [("job_id", .str c)]), w)) ∧
       (∀ r, w.jobs c = .success r →
          (pyTruthy r = false ∨ pyContains "error" r = true) →
          submit_username w u = createSingle w u) ∧
       (∀ i, w.jobs c = .failure i → submit_username w u = createSingle w u) ∧
       (∀ st, w.jobs c = .other st → submit_username w u = createSingle w u))) ∧
    (∀ w u rest agg c, reMatchUsername u = true → redisGet w u = some (.s c) →
      c.data.isEmpty = false →
      submitBatchLoop w (u :: rest) agg =
        submitBatchLoop w rest
          (dictInsert agg u (.dict [("job_id", .str c), ("status", .str "cached")]))) := by
  constructor
  · intro w u c hval hc hne
    exact ⟨fun hp => submit_hit_pending w u c hval hc hne hp,
           fun r hs ht hcn => submit_hit_success_good w u c r hval hc hne hs ht hcn,
           fun r hs hbad => submit_hit_success_bad w u c r hval hc hne hs hbad,
           fun i hs => submit_hit_failure w u c i hval hc hne hs,
           fun st hs => submit_hit_other w u c st hval hc hne hs⟩
  · intro w u rest agg c hval hc hne
    simp [submitBatchLoop, hval, hc, asCachedId, hne]

/-- Witness for the amended C6: with a failed cached job for `alice`,
the single path discards the cached id and creates a new job, while the
batch loop reuses the very same cached id. -/
theorem cached_id_validation_paths_witness :
    submit_username wC6 "alice" = createSingle wC6 "alice" ∧
    submitBatchLoop wC6 ["alice"] [] =
      submitBatchLoop wC6 []
        (dictInsert [] "alice"
          (.dict [("job_id", .str uuidA), ("status", .str "cached")])) := by
  have h := cached_id_validation_paths
  exact ⟨(h.1 wC6 "alice" uuidA (by decide) rfl rfl).2.2.2.1 "boom" rfl,
         h.2 wC6 "alice" [] [] uuidA (by decide) rfl rfl⟩

/-- C4 counterexample: a repeat call while the referenced job is Success
with an error-free payload does not always return the same job id. With
the empty-list payload (produced by a failed registry fetch) cached
under `alice` — a payload with no error field — the guard at `main.py`
line 136 is false because the payload is falsy, so the call returns a
fresh job id different from the cached one. -/
theorem submit_repeat_falsy_success_new_job :
    redisGet wC4 "alice" = some (.s uuidA) ∧
    wC4.jobs uuidA = .success (.list []) ∧
    pyContains "error" (.list []) = false ∧
    (submit_username wC4 "alice").1 = .ok (.dict [("job_id", .str uuidB)]) ∧
    uuidB ≠ uuidA :=
  ⟨rfl, rfl, rfl, rfl, by decide⟩

/-- C4 amended: for every valid username, submission returns a job id of
canonical UUID shape (ids are drawn from uuid4/celery, and cache entries
hold such ids), the returned id is cached under the username, and an
immediate repeat call — while the referenced task is Pending or Success
with a truthy error-free payload and the cache entry is still present —
returns the same job id and leaves the world unchanged. A Success
payload that is falsy (such as the empty list), even without an error
field, is instead treated as stale and the repeat call draws a fresh
job id. -/
theorem submit_single_uuid_and_repeat (w : World) (u : String)
    (hval : reMatchUsername u = true)
    (hgen : ∀ n, isCanonicalUUID (w.gen n) = true)
    (hcache : ∀ v, redisGet w u = some v →
      ∃ s, v = RedisVal.s s ∧ isCanonicalUUID s = true) :
    ∃ j, isCanonicalUUID j = true ∧
      (submit_username w u).1 = .ok (.dict [("job_id", .str j)]) ∧
      redisGet (submit_username w u).2 u = some (.s j) ∧
      (((submit_username w u).2.jobs j = .pending ∨
        ∃ r, (submit_username w u).2.jobs j = .success r ∧
          pyTruthy r = true ∧ pyContains "error" r = false) →
        submit_username (submit_username w u).2 u =
          (.ok (.dict [("job_id", .str j)]), (submit_username w u).2)) := by
  have repeatStep : ∀ (w1 : World) (j : String), isCanonicalUUID j = true →
      redisGet w1 u = some (.s j) →
      (w1.jobs j = .pending ∨ ∃ r, w1.jobs j = .success r ∧
        pyTruthy r = true ∧ pyContains "error" r = false) →
      submit_username w1 u = (.ok (.dict [("job_id", .str j)]), w1) := by
    intro w1 j hj hcj hst
    have hne := uuid_data_not_empty j hj
    rcases hst with hp | ⟨r, hs, ht, hcn⟩
    · exact submit_hit_pending w1 u j hval hcj hne hp
    · exact submit_hit_success_good w1 u j r hval hcj hne hs ht hcn
  suffices hfirst : ∃ j, isCanonicalUUID j = true ∧
      (submit_username w u).1 = .ok (.dict [("job_id", .str j)]) ∧
      redisGet (submit_username w u).2 u = some (.s j) by
    obtain ⟨j, hj, h1, h2⟩ := hfirst
    exact ⟨j, hj, h1, h2, fun hst => repeatStep _ j hj h2 hst⟩
  cases hc : redisGet w u with
  | none =>
      have he := submit_miss w u hval hc
      exact ⟨w.gen w.ctr, hgen w.ctr, by rw [he]; rfl,
             by rw [he]; exact createSingle_snd_get w u⟩
  | some v =>
      obtain ⟨s, rfl, hjs⟩ := hcache v hc
      have hne := uuid_data_not_empty s hjs
      cases hjob : w.jobs s with
      | pending =>
          have he := submit_hit_pending w u s hval hc hne hjob
          exact ⟨s, hjs, by rw [he], by rw [he]; exact hc⟩
      | success r =>
          by_cases hb : (pyTruthy r && !pyContains "error" r) = true
          · obtain ⟨ht, hcn⟩ : pyTruthy r = true ∧ pyContains "error" r = false := by
              cases hT : pyTruthy r <;> cases hC : pyContains "error" r <;>
                simp [hT, hC] at hb ⊢
            have he := submit_hit_success_good w u s r hval hc hne hjob ht hcn
            exact ⟨s, hjs, by rw [he], by rw [he]; exact hc⟩
          · have hbad : pyTruthy r = false ∨ pyContains "error" r = true := by
              cases hT : pyTruthy r <;> cases hC : pyContains "error" r <;>
                simp [hT, hC] at hb ⊢
            have he := submit_hit_success_bad w u s r hval hc hne hjob hbad
            exact ⟨w.gen w.ctr, hgen w.ctr, by rw [he]; rfl,
                   by rw [he]; exact createSingle_snd_get w u⟩
      | failure i =>
          have he := submit_hit_failure w u s i hval hc hne hjob
          exact ⟨w.gen w.ctr, hgen w.ctr, by rw [he]; rfl,
                 by rw [he]; exact createSingle_snd_get w u⟩
      | other st =>
          have he := submit_hit_other w u s st hval hc hne hjob
          exact ⟨w.gen w.ctr, hgen w.ctr, by rw [he]; rfl,
                 by rw [he]; exact createSingle_snd_get w u⟩

/-- Witness for C4 at the fresh world and the username `alice`. -/
theorem submit_single_uuid_and_repeat_witness :
    ∃ j, isCanonicalUUID j = true ∧
      (submit_username freshWorld "alice").1 = .ok (.dict [("job_id", .str j)]) ∧
      redisGet (submit_username freshWorld "alice").2 "alice" = some (.s j) ∧
      (((submit_username freshWorld "alice").2.jobs j = .pending ∨
        ∃ r, (submit_username freshWorld "alice").2.jobs j = .success r ∧
          pyTruthy r = true ∧ pyContains "error" r = false) →
        submit_username (submit_username freshWorld "alice").2 "alice" =
          (.ok (.dict [("job_id", .str j)]),
           (submit_username freshWorld "alice").2)) :=
  submit_single_uuid_and_repeat freshWorld "alice" (by decide)
    (fun _ => uuidA_is_uuid)
    (fun v hv => absurd hv (by simp [redisGet, freshWorld]))

/-- C9: the status query is pure and idempotent: in every branch it
returns the world unchanged (it mutates neither job state nor stored
manifests), and on an unfinished single job (valid UUID, no stored
manifest, task pending) it returns the pending envelope, a second
consecutive call returning the identical result. -/
theorem job_status_pure_idempotent (w : World) (jid : String) :
    (job_status w jid).2 = w ∧
    (reMatchUUID jid = true → redisGet w jid = Option.none → w.jobs jid = .pending →
      (job_status w jid).1 = .ok (.dict [("job_id", .str jid),
        ("status", .str "pending"), ("type", .str "single")]) ∧
      job_status ((job_status w jid).2) jid = job_status w jid) := by
  have hpure : (job_status w jid).2 = w := by
    by_cases hu : reMatchUUID jid
    · cases hg : redisGet w jid with
      | none => simp [job_status, hu, hg]
      | some v =>
          cases v with
          | s sv => simp [job_status, hu, hg]
          | m entries =>
              cases hb : batchLoop w entries [] (.str jid) with
              | error e => simp [job_status, hu, hg, hb]
              | ok p => cases p with | mk agg varF => simp [job_status, hu, hg, hb]
    · simp [job_status, hu]
  refine ⟨hpure, fun hu hb hp => ⟨?_, ?_⟩⟩
  · simp [job_status, hu, hb, singleStatusEnvelope, hp]
  · rw [hpure]

/-- Witness for C9 at the fresh world and a concrete pending job id. -/
theorem job_status_pure_idempotent_witness :
    (job_status freshWorld uuidA).2 = freshWorld ∧
    (job_status freshWorld uuidA).1 = .ok (.dict [("job_id", .str uuidA),
      ("status", .str "pending"), ("type", .str "single")]) ∧
    job_status ((job_status freshWorld uuidA).2) uuidA =
      job_status freshWorld uuidA := by
  have h := job_status_pure_idempotent freshWorld uuidA
  have h2 := h.2 (by decide) rfl rfl
  exact ⟨h.1, h2.1, h2.2⟩

/-- C10: when a get-status call on a batch id returns an envelope built
from a stored manifest, the job_id field of that envelope is the job_id
value of the last manifest entry iterated (absent job ids appearing as
None) rather than the queried master id; the queried master id is the
job_id field exactly in the empty-manifest envelope. Under a successful
return, the last entry of a non-empty manifest is necessarily a dict. -/
theorem batch_envelope_job_id_last_entry (w : World) (jid : String)
    (entries : List (String × PyVal)) (env : PyVal)
    (hm : redisGet w jid = some (.m entries))
    (hok : (job_status w jid).1 = .ok env) :
    (entries = [] → env = .dict [("job_id", .str jid), ("type", .str "batch"),
      ("results", .dict [])]) ∧
    (∀ l u d, entries = l ++ [(u, .dict d)] →
      pyDictGet? env "job_id" = some (dictGetD d "job_id" PyVal.none)) ∧
    (entries ≠ [] → ∃ l u d, entries = l ++ [(u, .dict d)]) := by
  have hu : reMatchUUID jid = true := by
    by_cases h : reMatchUUID jid
    · exact h
    · exfalso; simp [job_status, h] at hok
  cases hb : batchLoop w entries [] (.str jid) with
  | error e =>
      exfalso
      simp [job_status, hu, hm, hb] at hok
  | ok p =>
      cases p with
      | mk agg varF =>
          have henv : env = .dict [("job_id", varF), ("type", .str "batch"),
              ("results", .dict agg)] := by
            simp [job_status, hu, hm, hb] at hok
            exact hok.symm
          refine ⟨?_, ?_, ?_⟩
          · intro hnil
            subst hnil
            simp [batchLoop] at hb
            rw [henv, hb.1, hb.2]
          · intro l u d hdec
            subst hdec
            have hlast := batchLoop_ok_last w l u d [] (.str jid) (agg, varF) hb
            rw [henv]
            simp [pyDictGet?]
            exact hlast
          · intro hne
            rcases batchLoop_ok_last_dict w entries [] (.str jid) (agg, varF) hb with
              h0 | hd
            · exact absurd h0 hne
            · exact hd

/-- Witness for C10 at a concrete two-entry manifest: the envelope
returned for the master id carries the second (last) entry job id. -/
theorem batch_envelope_job_id_last_entry_witness :
    pyDictGet?
      (.dict [("job_id", .str uuidB), ("type", .str "batch"),
        ("results", .dict [("a", .dict [("status", .str "pending")]),
                           ("b", .dict [("status", .str "pending")])])])
      "job_id" = some (.str uuidB) := by
  have h := batch_envelope_job_id_last_entry wBatchTwo uuidC
    [("a", .dict [("job_id", .str uuidA), ("status", .str "new")]),
     ("b", .dict [("job_id", .str uuidB), ("status", .str "new")])]
    (.dict [("job_id", .str uuidB), ("type", .str "batch"),
      ("results", .dict [("a", .dict [("status", .str "pending")]),
                         ("b", .dict [("status", .str "pending")])])])
    rfl rfl
  exact h.2.1 [("a", .dict [("job_id", .str uuidA), ("status", .str "new")])]
    "b" [("job_id", .str uuidB), ("status", .str "new")] rfl

/-- Supporting lemma: inserting a fresh key appends. -/
theorem dictInsert_fresh (agg : List (String × PyVal)) (u : String) (v : PyVal)
    (h : agg.any (fun p => p.1 == u) = false) :
    dictInsert agg u v = agg ++ [(u, v)] := by
  simp [dictInsert, h]

/-- Supporting lemma: a malformed username records the error entry and
leaves the world (cache and job system) untouched in its iteration of
the batch submission loop. -/
theorem submitBatchLoop_malformed_step (w : World) (u : String)
    (rest : List String) (agg : List (String × PyVal))
    (h : reMatchUsername u = false) :
    submitBatchLoop w (u :: rest) agg =
      submitBatchLoop w rest (dictInsert agg u invalidEntry) := by
  simp [submitBatchLoop, h]

/-- Supporting lemma: the batch submission loop records exactly one
manifest entry per username, in order — for pairwise distinct usernames
not already present, the manifest keys are the accumulator keys followed
by the usernames, so a batch of N distinct usernames yields N entries. -/
theorem submitBatchLoop_keys (us : List String) : ∀ (w : World)
    (agg : List (String × PyVal)), us.Nodup →
    (∀ u ∈ us, agg.any (fun p => p.1 == u) = false) →
    (submitBatchLoop w us agg).1.map Prod.fst = agg.map Prod.fst ++ us := by
  induction us with
  | nil =>
      intro w agg _ _
      simp [submitBatchLoop]
  | cons u rest ih =>
      intro w agg hnd h
      have hu : agg.any (fun p => p.1 == u) = false := h u (by simp)
      have hstep : ∃ w' v, submitBatchLoop w (u :: rest) agg =
          submitBatchLoop w' rest (dictInsert agg u v) := by
        by_cases hval : reMatchUsername u
        · cases hcv : redisGet w u with
          | none =>
              exact ⟨redisSetex { w with ctr := w.ctr + 1 } u (.s (w.gen w.ctr)),
                .dict [("job_id", .str (w.gen w.ctr)), ("status", .str "new")],
                by simp [submitBatchLoop, hval, hcv]⟩
          | some cv =>
              by_cases hce : (asCachedId cv).data.isEmpty
              · exact ⟨redisSetex { w with ctr := w.ctr + 1 } u (.s (w.gen w.ctr)),
                  .dict [("job_id", .str (w.gen w.ctr)), ("status", .str "new")],
                  by simp [submitBatchLoop, hval, hcv, hce]⟩
              · exact ⟨w,
                  .dict [("job_id", .str (asCachedId cv)), ("status", .str "cached")],
                  by simp [submitBatchLoop, hval, hcv, hce]⟩
        · exact ⟨w, invalidEntry, by simp [submitBatchLoop, hval]⟩
      obtain ⟨w', v, hstep⟩ := hstep
      have hunotin : u ∉ rest := (List.nodup_cons.mp hnd).1
      have hdisj : ∀ x ∈ rest, (dictInsert agg u v).any (fun p => p.1 == x) = false := by
        intro x hx
        rw [dictInsert_fresh agg u v hu, List.any_append]
        have h1 : agg.any (fun p => p.1 == x) = false := h x (by simp [hx])
        have h2 : u ≠ x := fun he => hunotin (he ▸ hx)
        simp [h1, h2]
      rw [hstep, ih w' (dictInsert agg u v) (List.nodup_cons.mp hnd).2 hdisj,
        dictInsert_fresh agg u v hu]
      simp
